import Mathlib

/-
Verification of the notes-app FastAPI backend (src/server/main.py).

The server keeps a process-wide list NOTES of notes.  Each HTTP handler
is embedded as a pure function from its inputs and the current store to
its response together with the store it leaves behind.  The wall clock
(time.time() * 1000, already truncated to an integer) is passed in as a
Nat parameter, and the two LLM adapter functions are passed in as
parameters of type Adapter: an adapter either raises (Except.error)
or returns a Python value that is None or a string (Option String).
-/

namespace NotesApp

/-- A stored note: the Note model has fields id and text, both strings. -/
structure Note where
  id : String
  text : String
deriving DecidableEq

/-- The id given to a freshly created note: str(int(time.time() * 1000)),
the decimal rendering of the millisecond timestamp. -/
def natId (now : Nat) : String :=
  Nat.repr now

/-- GET /api/notes (list_notes in main.py): returns the whole store and
leaves it untouched.  First component: the response body; second: the store
after the handler runs. -/
def list_notes (notes : List Note) : List Note × List Note :=
  (notes, notes)

/-- POST /api/notes (create_note in main.py): builds a note with the
timestamp id and the payload text, appends it, and returns it. -/
def create_note (now : Nat) (text : String) (notes : List Note) :
    Note × List Note :=
  let note : Note := Note.mk (natId now) text
  (note, notes ++ [note])

/-- DELETE /api/notes/ with path parameter note_id (delete_note in main.py):
NOTES is rebuilt as the list of notes whose id differs from note_id; if the
length did not change, HTTP 404 with detail "Note not found" is raised,
else 204 is returned.  First component: (status code, optional error
detail); second component: the store after the handler runs. -/
def delete_note (note_id : String) (notes : List Note) :
    (Nat × Option String) × List Note :=
  let newNotes := notes.filter (fun n => n.id ≠ note_id)
  if newNotes.length = notes.length then
    ((404, some "Note not found"), newNotes)
  else
    ((204, none), newNotes)

/-- The response of POST /api/notes/summary: either a JSONResponse with an
error status and an error message, or a 200 SummaryResponse carrying the
summary string. -/
inductive SummaryResp where
  | err (status : Nat) (msg : String) : SummaryResp
  | ok (summary : String) : SummaryResp
deriving DecidableEq

/-- An LLM adapter function taking the note text and the user query:
Except.error models a raised exception, Except.ok none a None result,
Except.ok (some s) a string result. -/
def Adapter : Type :=
  String → String → Except Unit (Option String)

/-- Python llm_res or-else fallback: the fallback is used when llm_res is
None or the empty string (the falsy string). -/
def pyOr (llm_res : Option String) (fallback : String) : String :=
  match llm_res with
  | none => fallback
  | some s => if s = "" then fallback else s

/-- POST /api/notes/summary (summarize_note in main.py).  Checks, in
order: emptiness of userQuery or notesId (400), lookup of notesId in the
store (404), dispatch on modelName (400 when it is neither "openai" nor
"gemini").  A raised adapter exception is caught by the surrounding
try/except and becomes a 500.  Otherwise the summary (adapter result or
the fallback) is appended to the store as a new note and returned. -/
def summarize_note (openai gemini : Adapter) (now : Nat)
    (userQuery notesId modelName : String) (notes : List Note) :
    SummaryResp × List Note :=
  if userQuery = "" ∨ notesId = "" then
    (SummaryResp.err 400 "userQuery and notesId are required", notes)
  else
    match notes.find? (fun n => n.id = notesId) with
    | none => (SummaryResp.err 404 "Note not found", notes)
    | some note =>
      if modelName = "openai" then
        match openai note.text userQuery with
        | Except.error _ =>
          (SummaryResp.err 500 "Failed to summarize note", notes)
        | Except.ok llm_res =>
          let summary := pyOr llm_res "No summary generated"
          (SummaryResp.ok summary, notes ++ [Note.mk (natId now) summary])
      else if modelName = "gemini" then
        match gemini note.text userQuery with
        | Except.error _ =>
          (SummaryResp.err 500 "Failed to summarize note", notes)
        | Except.ok llm_res =>
          let summary := pyOr llm_res "No summary generated"
          (SummaryResp.ok summary, notes ++ [Note.mk (natId now) summary])
      else
        (SummaryResp.err 400 "Invalid modelName. Use \x27openai\x27 or \x27gemini\x27.",
         notes)

/-- Running a sequence of POST /api/notes creations: each input is the
millisecond timestamp observed by that request together with the payload
text. -/
def run_creates (inputs : List (Nat × String)) (notes : List Note) :
    List Note :=
  match inputs with
  | [] => notes
  | (now, text) :: rest => run_creates rest (create_note now text notes).2

/-- The all-digit-id invariant on a store. -/
def AllDigitIds (notes : List Note) : Prop :=
  ∀ n ∈ notes, ∀ c ∈ n.id.toList, c.isDigit

instance : DecidablePred AllDigitIds := fun notes =>
  inferInstanceAs (Decidable (∀ n ∈ notes, ∀ c ∈ n.id.toList, c.isDigit))

/-- An adapter that always returns None (a falsy result). -/
def noopAdapter : Adapter := fun _ _ => Except.ok none

/-- An adapter that always raises. -/
def raisingAdapter : Adapter := fun _ _ => Except.error ()

/-! Helper lemmas. -/

theorem digitChar_isDigit {m : Nat} (h : m < 10) : (Nat.digitChar m).isDigit := by
  interval_cases m <;> decide

theorem toDigitsCore_digits (fuel : Nat) :
    ∀ (n : Nat) (ds : List Char), (∀ c ∈ ds, c.isDigit) →
      ∀ c ∈ Nat.toDigitsCore 10 fuel n ds, c.isDigit := by
  induction fuel with
  | zero => intro n ds hds; simpa [Nat.toDigitsCore] using hds
  | succ fuel ih =>
    intro n ds hds c hc
    rw [Nat.toDigitsCore] at hc
    have hd : (Nat.digitChar (n % 10)).isDigit :=
      digitChar_isDigit (Nat.mod_lt _ (by norm_num))
    by_cases h0 : n / 10 = 0
    · simp only [h0, if_true] at hc
      rcases List.mem_cons.mp hc with h | h
      · exact h ▸ hd
      · exact hds c h
    · simp only [h0, if_false] at hc
      exact ih _ _ (by
        intro x hx
        rcases List.mem_cons.mp hx with h | h
        · exact h ▸ hd
        · exact hds x h) c hc

theorem natId_all_digits (now : Nat) : ∀ c ∈ (natId now).toList, c.isDigit := by
  show ∀ c ∈ ((Nat.toDigits 10 now).asString).toList, c.isDigit
  have h : ((Nat.toDigits 10 now).asString).toList = Nat.toDigits 10 now := by
    simp [List.asString, String.toList]
  rw [h]
  exact toDigitsCore_digits (now + 1) now [] (by intro c hc; cases hc)

theorem run_creates_eq (inputs : List (Nat × String)) (s : List Note) :
    run_creates inputs s
      = s ++ inputs.map (fun p => Note.mk (natId p.1) p.2) := by
  induction inputs generalizing s with
  | nil => simp [run_creates]
  | cons p rest ih =>
    cases p with
    | mk now text => simp [run_creates, create_note, ih]

theorem summarize_note_store (o g : Adapter) (t : Nat) (q nid m : String)
    (s : List Note) :
    (summarize_note o g t q nid m s).2 = s ∨
    ∃ x, (summarize_note o g t q nid m s).2 = s ++ [Note.mk (natId t) x] := by
  simp only [summarize_note]
  split
  · exact Or.inl rfl
  · cases s.find? (fun n => n.id = nid) with
    | none => exact Or.inl rfl
    | some note =>
      dsimp only
      split
      · cases o note.text q with
        | error e => exact Or.inl rfl
        | ok r => exact Or.inr ⟨_, rfl⟩
      · split
        · cases g note.text q with
          | error e => exact Or.inl rfl
          | ok r => exact Or.inr ⟨_, rfl⟩
        · exact Or.inl rfl

/-! Claim theorems. -/

/-- Claim C1, counterexample.  The claim says a DELETE on an existing id
removes exactly one matching note.  On a store holding two notes that share
the id "1" (possible when both were created in the same millisecond), the
handler returns 204 but removes two notes, not one. -/
theorem C1_counterexample_duplicate_ids :
    (delete_note "1" [Note.mk "1" "a", Note.mk "1" "b"]).1.1 = 204 ∧
    ([Note.mk "1" "a", Note.mk "1" "b"] : List Note).length
      - ((delete_note "1" [Note.mk "1" "a", Note.mk "1" "b"]).2).length = 2 := by
  decide

/-- Claim C1, amended.  For every store containing at least one note with
the given id, DELETE /api/notes/ removes exactly the matching notes (their
count, which is at least one — exactly one whenever ids are unique) and
returns status 204. -/
theorem C1_delete_existing_removes_all_matches (id : String) (s : List Note)
    (h : ∃ n ∈ s, n.id = id) :
    (delete_note id s).1.1 = 204 ∧
    s.length - ((delete_note id s).2).length
      = s.countP (fun n => n.id = id) ∧
    1 ≤ s.countP (fun n => n.id = id) := by
  have hpos : 0 < s.countP (fun n => decide (n.id = id)) := by
    rw [List.countP_pos_iff]
    rcases h with ⟨n, hn, hid⟩
    exact ⟨n, hn, by simpa using hid⟩
  have key : s.length = (s.filter (fun n => decide (n.id = id))).length
      + (s.filter (fun n => !decide (n.id = id))).length :=
    List.length_eq_length_filter_add _
  have hcount : s.countP (fun n => decide (n.id = id))
      = (s.filter (fun n => decide (n.id = id))).length :=
    List.countP_eq_length_filter _ _
  have hfilt : s.filter (fun n => decide (n.id ≠ id))
      = s.filter (fun n => !decide (n.id = id)) := by
    simp [decide_not]
  have hlt : (s.filter (fun n => decide (n.id ≠ id))).length < s.length := by
    rw [hfilt]; omega
  simp only [delete_note]
  rw [if_neg (by omega)]
  refine ⟨rfl, ?_, by omega⟩
  dsimp only
  rw [hfilt]
  omega

/-- Claim C1, witness: on the one-note store with id "1", deleting "1"
satisfies the hypothesis and returns 204. -/
theorem C1_witness :
    (∃ n ∈ ([Note.mk "1" "a"] : List Note), n.id = "1") ∧
    (delete_note "1" [Note.mk "1" "a"]).1.1 = 204 :=
  ⟨by decide,
   (C1_delete_existing_removes_all_matches "1" [Note.mk "1" "a"] (by decide)).1⟩

/-- Claim C2, counterexample.  The claim says a summary request with
modelName "xyz" returns 400 regardless of notesId and of the store.  With
userQuery "q", notesId "0" and an empty store, the note lookup fails first
and the handler returns 404, not 400. -/
theorem C2_counterexample_missing_note :
    (summarize_note noopAdapter noopAdapter 0 "q" "0" "xyz" []).1
      = SummaryResp.err 404 "Note not found" := by
  rfl

/-- Claim C2, amended.  A summary request whose modelName is neither
"openai" nor "gemini" never mutates the store; and when, in addition,
userQuery and notesId are non-empty and notesId matches a note in the
store, the response is 400 with the invalid-modelName error (otherwise an
earlier validation or lookup error, 400 or 404, is returned first). -/
theorem C2_invalid_model_400 (o g : Adapter) (t : Nat) (q nid m : String)
    (s : List Note) (hm : m ≠ "openai" ∧ m ≠ "gemini") :
    (summarize_note o g t q nid m s).2 = s ∧
    (q ≠ "" → nid ≠ "" → (∃ n ∈ s, n.id = nid) →
      (summarize_note o g t q nid m s).1
        = SummaryResp.err 400
            "Invalid modelName. Use \x27openai\x27 or \x27gemini\x27.") := by
  constructor
  · simp only [summarize_note]
    split
    · rfl
    · cases hfind : s.find? (fun n => n.id = nid) with
      | none => rfl
      | some note =>
        simp only [hfind]
        rw [if_neg hm.1, if_neg hm.2]
  · intro hq hn hex
    have hfind : (s.find? (fun n => n.id = nid)).isSome := by
      rw [List.find?_isSome]
      rcases hex with ⟨n, hn2, hid⟩
      exact ⟨n, hn2, by simpa using hid⟩
    simp only [summarize_note]
    rw [if_neg (by simp [hq, hn])]
    cases hf : s.find? (fun n => n.id = nid) with
    | none => rw [hf] at hfind; simp at hfind
    | some note =>
      simp only [hf]
      rw [if_neg hm.1, if_neg hm.2]

/-- Claim C2, witness: with modelName "xyz", non-empty fields and a
matching note, the store is unchanged and the response is the 400
invalid-modelName error. -/
theorem C2_witness :
    (summarize_note noopAdapter noopAdapter 0 "q" "1" "xyz"
        [Note.mk "1" "a"]).2 = [Note.mk "1" "a"] ∧
    (summarize_note noopAdapter noopAdapter 0 "q" "1" "xyz"
        [Note.mk "1" "a"]).1
      = SummaryResp.err 400
          "Invalid modelName. Use \x27openai\x27 or \x27gemini\x27." := by
  have h := C2_invalid_model_400 noopAdapter noopAdapter 0 "q" "1" "xyz"
    [Note.mk "1" "a"] (by decide)
  exact ⟨h.1, h.2 (by decide) (by decide) (by decide)⟩

/-- Claim C3, counterexample.  The claim says every summary request whose
notesId matches no stored note returns 404.  With an empty userQuery (and
notesId "z" absent from the empty store) the field validation fires first
and the handler returns 400, not 404. -/
theorem C3_counterexample_empty_query :
    (summarize_note noopAdapter noopAdapter 0 "" "z" "openai" []).1
      = SummaryResp.err 400 "userQuery and notesId are required" := by
  rfl

/-- Claim C3, amended.  For every summary request with non-empty userQuery
and notesId whose notesId matches no note in the store, the response is 404
with the "Note not found" error and the store is unchanged — for every
modelName, so in particular even when modelName is invalid (the lookup runs
before the modelName check). -/
theorem C3_missing_note_404 (o g : Adapter) (t : Nat) (q nid m : String)
    (s : List Note) (hq : q ≠ "") (hn : nid ≠ "")
    (habs : ∀ n ∈ s, n.id ≠ nid) :
    (summarize_note o g t q nid m s).1
      = SummaryResp.err 404 "Note not found" ∧
    (summarize_note o g t q nid m s).2 = s := by
  have hf : s.find? (fun n => n.id = nid) = none := by
    rw [List.find?_eq_none]
    intro n hn2
    simpa using habs n hn2
  simp only [summarize_note]
  rw [if_neg (by simp [hq, hn]), hf]
  exact ⟨rfl, rfl⟩

/-- Claim C3, witness: notesId "9" absent from a one-note store, with an
invalid modelName, yields 404 and leaves the store unchanged. -/
theorem C3_witness :
    (summarize_note noopAdapter noopAdapter 0 "q" "9" "xyz"
        [Note.mk "1" "a"]).1 = SummaryResp.err 404 "Note not found" ∧
    (summarize_note noopAdapter noopAdapter 0 "q" "9" "xyz"
        [Note.mk "1" "a"]).2 = [Note.mk "1" "a"] :=
  C3_missing_note_404 noopAdapter noopAdapter 0 "q" "9" "xyz"
    [Note.mk "1" "a"] (by decide) (by decide) (by decide)

/-- Claim C4.  For every summary request with non-empty userQuery and
notesId, a notesId found in the store, and a valid modelName whose selected
adapter raises, the response is 500 with the "Failed to summarize note"
error and the store is unchanged: the exception happens before the append,
so no summary note is committed. -/
theorem C4_adapter_exception_500 (o g : Adapter) (t : Nat) (q nid m : String)
    (s : List Note) (note : Note)
    (hq : q ≠ "") (hn : nid ≠ "")
    (hfind : s.find? (fun n => n.id = nid) = some note)
    (hsel : (m = "openai" ∧ o note.text q = Except.error ()) ∨
            (m = "gemini" ∧ g note.text q = Except.error ())) :
    (summarize_note o g t q nid m s).1
      = SummaryResp.err 500 "Failed to summarize note" ∧
    (summarize_note o g t q nid m s).2 = s := by
  simp only [summarize_note]
  rw [if_neg (by simp [hq, hn]), hfind]
  dsimp only
  rcases hsel with ⟨hm, ha⟩ | ⟨hm, ha⟩
  · rw [if_pos hm, ha]
    exact ⟨rfl, rfl⟩
  · have hne : m ≠ "openai" := by rw [hm]; decide
    rw [if_neg hne, if_pos hm, ha]
    exact ⟨rfl, rfl⟩

/-- Claim C4, witness: a raising openai adapter on a matching request gives
500 and an unchanged store. -/
theorem C4_witness :
    (summarize_note raisingAdapter noopAdapter 0 "q" "1" "openai"
        [Note.mk "1" "a"]).1
      = SummaryResp.err 500 "Failed to summarize note" ∧
    (summarize_note raisingAdapter noopAdapter 0 "q" "1" "openai"
        [Note.mk "1" "a"]).2 = [Note.mk "1" "a"] :=
  C4_adapter_exception_500 raisingAdapter noopAdapter 0 "q" "1" "openai"
    [Note.mk "1" "a"] (Note.mk "1" "a") (by decide) (by decide) (by decide)
    (Or.inl ⟨rfl, rfl⟩)

/-- Claim C5.  For every summary request with non-empty userQuery and
notesId, a notesId found in the store, and a valid modelName whose selected
adapter returns a falsy result (None or the empty string), a new note whose
text is exactly "No summary generated" is appended to the store and the
response is 200 with that same string as the summary. -/
theorem C5_empty_result_fallback (o g : Adapter) (t : Nat) (q nid m : String)
    (s : List Note) (note : Note)
    (hq : q ≠ "") (hn : nid ≠ "")
    (hfind : s.find? (fun n => n.id = nid) = some note)
    (hsel : (m = "openai" ∧
              (o note.text q = Except.ok none ∨
               o note.text q = Except.ok (some ""))) ∨
            (m = "gemini" ∧
              (g note.text q = Except.ok none ∨
               g note.text q = Except.ok (some "")))) :
    (summarize_note o g t q nid m s).1
      = SummaryResp.ok "No summary generated" ∧
    (summarize_note o g t q nid m s).2
      = s ++ [Note.mk (natId t) "No summary generated"] := by
  simp only [summarize_note]
  rw [if_neg (by simp [hq, hn]), hfind]
  dsimp only
  rcases hsel with ⟨hm, ha⟩ | ⟨hm, ha⟩
  · rw [if_pos hm]
    rcases ha with ha | ha <;> rw [ha] <;> exact ⟨rfl, rfl⟩
  · have hne : m ≠ "openai" := by rw [hm]; decide
    rw [if_neg hne, if_pos hm]
    rcases ha with ha | ha <;> rw [ha] <;> exact ⟨rfl, rfl⟩

/-- Claim C5, witness: a None-returning gemini adapter on a matching
request appends the fallback note and returns it as the summary. -/
theorem C5_witness :
    (summarize_note raisingAdapter noopAdapter 7 "q" "1" "gemini"
        [Note.mk "1" "a"]).1 = SummaryResp.ok "No summary generated" ∧
    (summarize_note raisingAdapter noopAdapter 7 "q" "1" "gemini"
        [Note.mk "1" "a"]).2
      = [Note.mk "1" "a"] ++ [Note.mk (natId 7) "No summary generated"] :=
  C5_empty_result_fallback raisingAdapter noopAdapter 7 "q" "1" "gemini"
    [Note.mk "1" "a"] (Note.mk "1" "a") (by decide) (by decide) (by decide)
    (Or.inr ⟨rfl, Or.inl rfl⟩)

/-- Claim C6.  For every store containing no note with the given id,
DELETE /api/notes/ leaves the store unchanged (same notes, same order) and
returns status 404 with the "Note not found" error detail. -/
theorem C6_delete_nonexistent_404 (id : String) (s : List Note)
    (h : ∀ n ∈ s, n.id ≠ id) :
    (delete_note id s).1.1 = 404 ∧
    (delete_note id s).1.2 = some "Note not found" ∧
    (delete_note id s).2 = s := by
  have hf : s.filter (fun n => decide (n.id ≠ id)) = s := by
    rw [List.filter_eq_self]
    intro n hn
    simpa using h n hn
  simp only [delete_note, hf, if_pos rfl]
  exact ⟨rfl, rfl, rfl⟩

/-- Claim C6, witness: deleting id "2" from a store holding only id "1"
returns 404 and changes nothing. -/
theorem C6_witness :
    (delete_note "2" [Note.mk "1" "a"]).1.1 = 404 ∧
    (delete_note "2" [Note.mk "1" "a"]).1.2 = some "Note not found" ∧
    (delete_note "2" [Note.mk "1" "a"]).2 = [Note.mk "1" "a"] :=
  C6_delete_nonexistent_404 "2" [Note.mk "1" "a"] (by decide)

/-- Claim C9.  Whenever DELETE /api/notes/ returns 204, no note with the
given id remains in the store (all sharing that id are removed in the one
call), every note with a different id survives, and the survivors keep
their relative order (the new store is a sublist of the old one). -/
theorem C9_delete_purges_id (id : String) (s : List Note)
    (h : (delete_note id s).1.1 = 204) :
    (∀ n ∈ (delete_note id s).2, n.id ≠ id) ∧
    (∀ n ∈ s, n.id ≠ id → n ∈ (delete_note id s).2) ∧
    ((delete_note id s).2).Sublist s := by
  have hkeep := h
  have h2 : (delete_note id s).2 = s.filter (fun n => decide (n.id ≠ id)) := by
    simp only [delete_note]
    split <;> rfl
  rw [h2]
  refine ⟨?_, ?_, List.filter_sublist s⟩
  · intro n hn
    have hmem := (List.mem_filter.mp hn).2
    simpa using hmem
  · intro n hn hid
    exact List.mem_filter.mpr ⟨hn, by simpa using hid⟩

/-- Claim C9, witness: deleting id "1" from a store with two notes of id
"1" around one of id "2" returns 204, and the conclusion holds there. -/
theorem C9_witness :
    (delete_note "1" [Note.mk "1" "a", Note.mk "2" "b", Note.mk "1" "c"]).1.1
      = 204 ∧
    ∀ n ∈ (delete_note "1"
        [Note.mk "1" "a", Note.mk "2" "b", Note.mk "1" "c"]).2,
      n.id ≠ "1" :=
  ⟨by decide,
   (C9_delete_purges_id "1"
      [Note.mk "1" "a", Note.mk "2" "b", Note.mk "1" "c"] (by decide)).1⟩

/-- Claim C7.  For every sequence of creations starting from the empty
store, listing returns exactly the created notes in creation order, each
with the id derived from its creation timestamp, and every id is an
all-digit decimal string. -/
theorem C7_creates_in_order_digit_ids (inputs : List (Nat × String)) :
    (list_notes (run_creates inputs [])).1
      = inputs.map (fun p => Note.mk (natId p.1) p.2) ∧
    ∀ n ∈ (list_notes (run_creates inputs [])).1,
      ∀ c ∈ n.id.toList, c.isDigit := by
  have h : (list_notes (run_creates inputs [])).1
      = inputs.map (fun p => Note.mk (natId p.1) p.2) := by
    show run_creates inputs [] = _
    rw [run_creates_eq]
    simp
  refine ⟨h, ?_⟩
  rw [h]
  intro n hn
  rcases List.mem_map.mp hn with ⟨p, hp, hpn⟩
  rw [← hpn]
  exact natId_all_digits p.1

/-- Claim C8.  Listing does not modify the store, and a second listing
with no intervening mutation returns the identical result. -/
theorem C8_list_idempotent (s : List Note) :
    (list_notes s).2 = s ∧
    (list_notes ((list_notes s).2)).1 = (list_notes s).1 :=
  ⟨rfl, rfl⟩

/-- Claim C10.  The all-digit-id invariant is preserved by every handler:
listing, creation, deletion, and summarization (whose appended note uses
the same timestamp-derived id format as creation). -/
theorem C10_all_digit_ids_invariant (s : List Note) (h : AllDigitIds s)
    (o g : Adapter) (t : Nat) (text q nid m id : String) :
    AllDigitIds (list_notes s).2 ∧
    AllDigitIds (create_note t text s).2 ∧
    AllDigitIds (delete_note id s).2 ∧
    AllDigitIds (summarize_note o g t q nid m s).2 := by
  refine ⟨h, ?_, ?_, ?_⟩
  · intro n hn
    have hmem : n ∈ s ++ [Note.mk (natId t) text] := hn
    rcases List.mem_append.mp hmem with h2 | h2
    · exact h n h2
    · have hx : n = Note.mk (natId t) text := by simpa using h2
      rw [hx]
      exact natId_all_digits t
  · intro n hn
    have h2 : (delete_note id s).2
        = s.filter (fun x => decide (x.id ≠ id)) := by
      simp only [delete_note]
      split <;> rfl
    rw [h2] at hn
    exact h n (List.mem_filter.mp hn).1
  · rcases summarize_note_store o g t q nid m s with h2 | ⟨x, h2⟩
    · rw [h2]; exact h
    · rw [h2]
      intro n hn
      rcases List.mem_append.mp hn with h3 | h3
      · exact h n h3
      · have hx : n = Note.mk (natId t) x := by simpa using h3
        rw [hx]
        exact natId_all_digits t

/-- Claim C10, witness: the invariant holds of the one-note store with id
"10" and is preserved by all four handlers on it. -/
theorem C10_witness :
    AllDigitIds [Note.mk "10" "a"] ∧
    AllDigitIds (create_note 3 "b" [Note.mk "10" "a"]).2 ∧
    AllDigitIds (delete_note "10" [Note.mk "10" "a"]).2 ∧
    AllDigitIds (summarize_note noopAdapter noopAdapter 3 "q" "10" "openai"
      [Note.mk "10" "a"]).2 :=
  ⟨by decide,
   (C10_all_digit_ids_invariant [Note.mk "10" "a"] (by decide)
      noopAdapter noopAdapter 3 "b" "q" "10" "openai" "10").2.1,
   (C10_all_digit_ids_invariant [Note.mk "10" "a"] (by decide)
      noopAdapter noopAdapter 3 "b" "q" "10" "openai" "10").2.2.1,
   (C10_all_digit_ids_invariant [Note.mk "10" "a"] (by decide)
      noopAdapter noopAdapter 3 "b" "q" "10" "openai" "10").2.2.2⟩

end NotesApp
